import Mathlib

/-!
Verification development for the `search-sub` event-driven search-index
synchronizer (`src/main.go`).

The Go program subscribes to five NATS subjects, decodes each inbound JSON
payload with `encoding/json` into a `User`, `Post`, or an anonymous
delete-event struct, maps records to flat Typesense documents, and issues
create/upsert/delete calls against the `users` and `posts` collections.

The embedding below models:
  - parsed JSON values (`Json`); a raw message payload is `Option Json`,
    `none` standing for bytes that are not well-formed JSON;
  - Go `time.Time` values as epoch seconds plus a nanosecond part
    (`GoTime`), with `time.Parse(time.RFC3339)` as `parseRFC3339`;
  - `json.Unmarshal` into the three record shapes, following the Go
    decoder: `null` leaves the target untouched, missing fields keep their
    zero value, unknown fields are ignored, object keys are matched
    case-insensitively against the lowercase struct tags, a kind or range
    mismatch is an error;
  - the two document mappers, the Typesense collection operations, the
    five subscription handlers, subject dispatch, and subscription setup.
-/

inductive Json where
  | null : Json
  | bool : Bool → Json
  | num : Int → Json
  | str : String → Json
  | arr : List Json → Json
  | obj : List (String × Json) → Json

/-- Go `time.Time`, reduced to the wall clock the program observes: seconds
since the Unix epoch plus a nanosecond part in `[0, 1e9)`. `Unix()` returns
the seconds field. -/
structure GoTime where
  sec : Int
  nsec : Nat
deriving DecidableEq, Repr

def GoTime.Unix (t : GoTime) : Int := t.sec

/-- A `GoTime` is well formed when its nanosecond part is a proper
sub-second amount, as `time.Time` guarantees. -/
abbrev GoTime.WF (t : GoTime) : Prop := t.nsec < 1000000000

/-- The zero `time.Time` is January 1, year 1, 00:00:00 UTC; its `Unix()`
value is -62135596800. -/
def GoTime.zero : GoTime := ⟨-62135596800, 0⟩

/-- Epoch seconds of a timestamp truncated to the second: the total
nanosecond count floor-divided by 1e9. -/
def truncSeconds (t : GoTime) : Int :=
  (t.sec * 1000000000 + (t.nsec : Int)) / 1000000000

def chDash : Char := '-'
def chColon : Char := ':'
def chUpperT : Char := 'T'
def chUpperZ : Char := 'Z'
def chPlus : Char := '+'
def chDot : Char := '.'

def digitVal (c : Char) : Option Nat :=
  if c.isDigit then some (c.toNat - 48) else none

def digits2 (a b : Char) : Option Nat :=
  match digitVal a, digitVal b with
  | some x, some y => some (x * 10 + y)
  | _, _ => none

def digits4 (a b c d : Char) : Option Nat :=
  match digitVal a, digitVal b, digitVal c, digitVal d with
  | some w, some x, some y, some z => some (w * 1000 + x * 100 + y * 10 + z)
  | _, _, _, _ => none

def isLeapYear (y : Nat) : Bool :=
  y % 4 == 0 && (y % 100 != 0 || y % 400 == 0)

def daysInMonth (y : Nat) (m : Nat) : Nat :=
  if m == 2 then (if isLeapYear y then 29 else 28)
  else if m == 4 || m == 6 || m == 9 || m == 11 then 30
  else 31

/-- Days from the civil epoch 1970-01-01 for a proleptic Gregorian date. -/
def daysFromCivil (year : Int) (m : Nat) (d : Nat) : Int :=
  let y : Int := if m ≤ 2 then year - 1 else year
  let era : Int := (if 0 ≤ y then y else y - 399) / 400
  let yoe : Int := y - era * 400
  let mp : Int := ((m : Int) + 9) % 12
  let doy : Int := (153 * mp + 2) / 5 + (d : Int) - 1
  let doe : Int := yoe * 365 + yoe / 4 - yoe / 100 + doy
  era * 146097 + doe - 719468

def utcSeconds (year : Int) (mo d hh mm ss : Nat) : Int :=
  daysFromCivil year mo d * 86400 + (hh : Int) * 3600 + (mm : Int) * 60 + (ss : Int)

def fracValue (ds : List Char) : Nat :=
  (ds.foldl (fun a c => a * 10 + (c.toNat - 48)) 0) * 10 ^ (9 - ds.length)

/-- Optional fractional-second part after the seconds field. -/
def parseFrac : List Char → Option (Nat × List Char)
  | [] => some (0, [])
  | c :: rest =>
    if c = chDot then
      let ds := rest.takeWhile Char.isDigit
      if ds.length = 0 ∨ 9 < ds.length then none
      else some (fracValue ds, rest.dropWhile Char.isDigit)
    else some (0, c :: rest)

/-- Timezone suffix: `Z` or a `±hh:mm` offset, returned in seconds east of
UTC. -/
def parseOffset : List Char → Option Int
  | [c] => if c = chUpperZ then some 0 else none
  | c :: h1 :: h2 :: c2 :: n1 :: n2 :: [] =>
    if c2 = chColon then
      match digits2 h1 h2, digits2 n1 n2 with
      | some oh, some om =>
        if oh ≤ 23 ∧ om ≤ 59 then
          if c = chPlus then some ((oh : Int) * 3600 + (om : Int) * 60)
          else if c = chDash then some (-((oh : Int) * 3600 + (om : Int) * 60))
          else none
        else none
      | _, _ => none
    else none
  | _ => none

/-- Go `time.Parse(time.RFC3339, s)`: `YYYY-MM-DDTHH:MM:SS` with an
optional fraction and a mandatory `Z` or `±hh:mm` zone. -/
def parseRFC3339 (s : String) : Option GoTime :=
  match s.toList with
  | y1 :: y2 :: y3 :: y4 :: a1 :: m1 :: m2 :: a2 :: d1 :: d2 :: a3 ::
      h1 :: h2 :: a4 :: n1 :: n2 :: a5 :: p1 :: p2 :: rest =>
    if a1 = chDash ∧ a2 = chDash ∧ a3 = chUpperT ∧ a4 = chColon ∧ a5 = chColon then
      match digits4 y1 y2 y3 y4, digits2 m1 m2, digits2 d1 d2,
        digits2 h1 h2, digits2 n1 n2, digits2 p1 p2 with
      | some y, some mo, some dy, some hh, some mm, some ss =>
        if 1 ≤ mo ∧ mo ≤ 12 ∧ 1 ≤ dy ∧ dy ≤ daysInMonth y mo ∧
            hh ≤ 23 ∧ mm ≤ 59 ∧ ss ≤ 59 then
          match parseFrac rest with
          | some (ns, rest2) =>
            match parseOffset rest2 with
            | some off => some ⟨utcSeconds (y : Int) mo dy hh mm ss - off, ns⟩
            | none => none
          | none => none
        else none
      | _, _, _, _, _, _ => none
    else none
  | _ => none

/-- The `User` struct of `src/main.go` with its JSON tags
`id, username, name, email, bio, picture, school, country, campus,
info_updated, program, year, created_at, updated_at`. -/
structure User where
  Id : String
  Username : String
  Name : String
  Email : String
  Bio : String
  Picture : String
  School : String
  Country : String
  Campus : String
  InfoUpdated : Bool
  Program : String
  Year : Int
  CreatedAt : GoTime
  UpdatedAt : GoTime
deriving DecidableEq, Repr

def User.zero : User :=
  ⟨"", "", "", "", "", "", "", "", "", false, "", 0, GoTime.zero, GoTime.zero⟩

/-- The `Post` struct of `src/main.go` with its JSON tags
`id, user_id, username, user_picture, user_bio, user_programme, user_year,
user_campus, subject, title, content, images, created_at, updated_at`. -/
structure Post where
  Id : String
  UserId : String
  Username : String
  UserPicture : String
  UserBio : String
  UserProgramme : String
  UserYear : Int
  UserCampus : String
  Subject : String
  Title : String
  Content : String
  Images : List String
  CreatedAt : GoTime
  UpdatedAt : GoTime
deriving DecidableEq, Repr

def Post.zero : Post :=
  ⟨"", "", "", "", "", "", 0, "", "", "", "", [], GoTime.zero, GoTime.zero⟩

/-- The anonymous delete-event struct of the two deletion handlers: a
single field with tag `id`. -/
structure DeleteEvent where
  Id : String
deriving DecidableEq, Repr

def DeleteEvent.zero : DeleteEvent := ⟨""⟩

def exceptOk : Except String α → Bool
  | Except.ok _ => true
  | Except.error _ => false

/-- Decoding a JSON value into a Go `string` field holding `cur`: `null`
leaves the field untouched, a string replaces it, anything else is a
kind mismatch. -/
def decGoString (cur : String) : Json → Except String String
  | Json.null => Except.ok cur
  | Json.str s => Except.ok s
  | _ => Except.error ("json: cannot unmarshal value into Go value of type string")

def decGoBool (cur : Bool) : Json → Except String Bool
  | Json.null => Except.ok cur
  | Json.bool b => Except.ok b
  | _ => Except.error ("json: cannot unmarshal value into Go value of type bool")

/-- Decoding into an `int32` field: numbers out of the int32 range
overflow and are errors, as in `encoding/json`. -/
def decGoInt32 (cur : Int) : Json → Except String Int
  | Json.null => Except.ok cur
  | Json.num n =>
    if -2147483648 ≤ n ∧ n ≤ 2147483647 then Except.ok n
    else Except.error ("json: cannot unmarshal number into Go value of type int32")
  | _ => Except.error ("json: cannot unmarshal value into Go value of type int32")

/-- `time.Time.UnmarshalJSON`: `null` is a no-op, otherwise the value must
be a JSON string in RFC 3339 format. -/
def decGoTime (cur : GoTime) : Json → Except String GoTime
  | Json.null => Except.ok cur
  | Json.str s =>
    match parseRFC3339 s with
    | some t => Except.ok t
    | none => Except.error ("parsing time: invalid RFC 3339 timestamp")
  | _ => Except.error ("Time.UnmarshalJSON: input is not a JSON string")

def decGoStrElem : Json → Except String String
  | Json.null => Except.ok ("")
  | Json.str s => Except.ok s
  | _ => Except.error ("json: cannot unmarshal value into Go value of type string")

def decGoStrElems : List Json → Except String (List String)
  | [] => Except.ok []
  | e :: es =>
    match decGoStrElem e with
    | Except.ok s => (decGoStrElems es).map fun l => s :: l
    | Except.error err => Except.error err

/-- Decoding into a `[]string` field: `null` sets the slice to nil, an
array decodes elementwise in order, anything else is a kind mismatch. -/
def decGoStrList (_cur : List String) : Json → Except String (List String)
  | Json.null => Except.ok []
  | Json.arr es => decGoStrElems es
  | _ => Except.error ("json: cannot unmarshal value into Go value of type []string")

instance [DecidableEq ε] [DecidableEq α] : DecidableEq (Except ε α) := fun x y =>
  match x, y with
  | Except.ok a, Except.ok b => decidable_of_iff (a = b) (by simp)
  | Except.error e, Except.error f => decidable_of_iff (e = f) (by simp)
  | Except.ok _, Except.error _ => isFalse fun hc => Except.noConfusion hc
  | Except.error _, Except.ok _ => isFalse fun hc => Except.noConfusion hc

def asciiLower (c : Char) : Char :=
  if 65 ≤ c.toNat ∧ c.toNat ≤ 90 then Char.ofNat (c.toNat + 32) else c

/-- `encoding/json` matches object keys against struct tags preferring an
exact match but accepting an ASCII case-insensitive one; with all-lowercase
tags this amounts to ASCII-lowercasing the key. -/
def foldKey (k : String) : String := String.mk (k.toList.map asciiLower)

def setUserField (u : User) (k : String) (v : Json) : Except String User :=
  if foldKey k = "id" then (decGoString u.Id v).map fun x => { u with Id := x }
  else if foldKey k = "username" then (decGoString u.Username v).map fun x => { u with Username := x }
  else if foldKey k = "name" then (decGoString u.Name v).map fun x => { u with Name := x }
  else if foldKey k = "email" then (decGoString u.Email v).map fun x => { u with Email := x }
  else if foldKey k = "bio" then (decGoString u.Bio v).map fun x => { u with Bio := x }
  else if foldKey k = "picture" then (decGoString u.Picture v).map fun x => { u with Picture := x }
  else if foldKey k = "school" then (decGoString u.School v).map fun x => { u with School := x }
  else if foldKey k = "country" then (decGoString u.Country v).map fun x => { u with Country := x }
  else if foldKey k = "campus" then (decGoString u.Campus v).map fun x => { u with Campus := x }
  else if foldKey k = "info_updated" then (decGoBool u.InfoUpdated v).map fun x => { u with InfoUpdated := x }
  else if foldKey k = "program" then (decGoString u.Program v).map fun x => { u with Program := x }
  else if foldKey k = "year" then (decGoInt32 u.Year v).map fun x => { u with Year := x }
  else if foldKey k = "created_at" then (decGoTime u.CreatedAt v).map fun x => { u with CreatedAt := x }
  else if foldKey k = "updated_at" then (decGoTime u.UpdatedAt v).map fun x => { u with UpdatedAt := x }
  else Except.ok u

def unmarshalUserObj (u : User) : List (String × Json) → Except String User
  | [] => Except.ok u
  | (k, v) :: rest =>
    match setUserField u k v with
    | Except.ok u2 => unmarshalUserObj u2 rest
    | Except.error e => Except.error e

/-- `json.Unmarshal(data, &user)` where `user` starts at the zero value:
`none` models bytes that are not well-formed JSON. -/
def unmarshalUser : Option Json → Except String User
  | none => Except.error ("invalid JSON input")
  | some Json.null => Except.ok User.zero
  | some (Json.obj fields) => unmarshalUserObj User.zero fields
  | some _ => Except.error ("json: cannot unmarshal value into Go value of type main.User")

def setPostField (p : Post) (k : String) (v : Json) : Except String Post :=
  if foldKey k = "id" then (decGoString p.Id v).map fun x => { p with Id := x }
  else if foldKey k = "user_id" then (decGoString p.UserId v).map fun x => { p with UserId := x }
  else if foldKey k = "username" then (decGoString p.Username v).map fun x => { p with Username := x }
  else if foldKey k = "user_picture" then (decGoString p.UserPicture v).map fun x => { p with UserPicture := x }
  else if foldKey k = "user_bio" then (decGoString p.UserBio v).map fun x => { p with UserBio := x }
  else if foldKey k = "user_programme" then (decGoString p.UserProgramme v).map fun x => { p with UserProgramme := x }
  else if foldKey k = "user_year" then (decGoInt32 p.UserYear v).map fun x => { p with UserYear := x }
  else if foldKey k = "user_campus" then (decGoString p.UserCampus v).map fun x => { p with UserCampus := x }
  else if foldKey k = "subject" then (decGoString p.Subject v).map fun x => { p with Subject := x }
  else if foldKey k = "title" then (decGoString p.Title v).map fun x => { p with Title := x }
  else if foldKey k = "content" then (decGoString p.Content v).map fun x => { p with Content := x }
  else if foldKey k = "images" then (decGoStrList p.Images v).map fun x => { p with Images := x }
  else if foldKey k = "created_at" then (decGoTime p.CreatedAt v).map fun x => { p with CreatedAt := x }
  else if foldKey k = "updated_at" then (decGoTime p.UpdatedAt v).map fun x => { p with UpdatedAt := x }
  else Except.ok p

def unmarshalPostObj (p : Post) : List (String × Json) → Except String Post
  | [] => Except.ok p
  | (k, v) :: rest =>
    match setPostField p k v with
    | Except.ok p2 => unmarshalPostObj p2 rest
    | Except.error e => Except.error e

def unmarshalPost : Option Json → Except String Post
  | none => Except.error ("invalid JSON input")
  | some Json.null => Except.ok Post.zero
  | some (Json.obj fields) => unmarshalPostObj Post.zero fields
  | some _ => Except.error ("json: cannot unmarshal value into Go value of type main.Post")

def setDeleteField (r : DeleteEvent) (k : String) (v : Json) : Except String DeleteEvent :=
  if foldKey k = "id" then (decGoString r.Id v).map fun x => { r with Id := x }
  else Except.ok r

def unmarshalDeleteObj (r : DeleteEvent) : List (String × Json) → Except String DeleteEvent
  | [] => Except.ok r
  | (k, v) :: rest =>
    match setDeleteField r k v with
    | Except.ok r2 => unmarshalDeleteObj r2 rest
    | Except.error e => Except.error e

def unmarshalDeleteEvent : Option Json → Except String DeleteEvent
  | none => Except.error ("invalid JSON input")
  | some Json.null => Except.ok DeleteEvent.zero
  | some (Json.obj fields) => unmarshalDeleteObj DeleteEvent.zero fields
  | some _ => Except.error ("json: cannot unmarshal value into Go delete-event struct")

/-- A scalar or list value of a Typesense document. -/
inductive DocValue where
  | str : String → DocValue
  | bool : Bool → DocValue
  | int : Int → DocValue
  | strList : List String → DocValue
deriving DecidableEq, Repr

/-- The flat key/value document sent to Typesense, in the field order the
mappers write. -/
abbrev Document := List (String × DocValue)

/-- The observable state of one Typesense collection: documents keyed by
their `id` field. -/
abbrev Collection := List (String × Document)

def docId (doc : Document) : Option String :=
  match doc.lookup ("id") with
  | some (DocValue.str i) => some i
  | _ => none

/-- `Documents().Create`: fails when a document with the same id already
exists. Both mappers always supply a string `id`, so the no-id branch is
unreachable from the handlers. -/
def collCreate (c : Collection) (doc : Document) : Except String Collection :=
  match docId doc with
  | none => Except.error ("document has no string id")
  | some i =>
    if (c.lookup i).isSome then
      Except.error ("A document with id already exists")
    else Except.ok (c ++ [(i, doc)])

/-- `Documents().Upsert`: replaces the prior document wholesale or inserts
a new one. -/
def collUpsert (c : Collection) (doc : Document) : Except String Collection :=
  match docId doc with
  | none => Except.error ("document has no string id")
  | some i =>
    if (c.lookup i).isSome then
      Except.ok (c.map fun kv => if kv.1 = i then (i, doc) else kv)
    else Except.ok (c ++ [(i, doc)])

/-- `Document(id).Delete`: a not-found delete is an error the handler
logs, not a silent success. -/
def collDeleteById (c : Collection) (i : String) : Except String Collection :=
  if (c.lookup i).isSome then Except.ok (c.filter fun kv => !(kv.1 == i))
  else Except.error ("Could not find a document with id")

/-- A Go `context.Context`. The source only ever constructs
`context.Background()`; the derived constructors exist so that
cancellability is expressible. -/
inductive GoContext where
  | background : GoContext
  | withCancel : GoContext → GoContext
  | withTimeout : GoContext → Nat → GoContext
deriving DecidableEq, Repr

/-- `context.Background()` is never canceled and has no deadline; only
derived `WithCancel`/`WithTimeout` contexts can be canceled. -/
def GoContext.cancellable : GoContext → Bool
  | GoContext.background => false
  | GoContext.withCancel _ => true
  | GoContext.withTimeout _ _ => true

/-- One backend index call as issued by a handler, tagged with the target
collection, the operation, and the context it is issued with. -/
inductive BackendCall where
  | createUserDoc : GoContext → Document → BackendCall
  | upsertUserDoc : GoContext → Document → BackendCall
  | deleteUserDoc : GoContext → String → BackendCall
  | upsertPostDoc : GoContext → Document → BackendCall
  | deletePostDoc : GoContext → String → BackendCall
deriving DecidableEq, Repr

def BackendCall.ctxOf : BackendCall → GoContext
  | BackendCall.createUserDoc c _ => c
  | BackendCall.upsertUserDoc c _ => c
  | BackendCall.deleteUserDoc c _ => c
  | BackendCall.upsertPostDoc c _ => c
  | BackendCall.deletePostDoc c _ => c

/-- The `SubscriberService`: the NATS connection and the two Typesense
clients are modelled by the observable state of the two collections they
reach. -/
structure SubscriberService where
  usersColl : Collection
  postsColl : Collection
deriving DecidableEq, Repr

def emptyService : SubscriberService := ⟨[], []⟩

/-- Effect of one backend call on the index state. -/
def SubscriberService.applyCall (s : SubscriberService) :
    BackendCall → Except String SubscriberService
  | BackendCall.createUserDoc _ doc =>
    (collCreate s.usersColl doc).map fun c => { s with usersColl := c }
  | BackendCall.upsertUserDoc _ doc =>
    (collUpsert s.usersColl doc).map fun c => { s with usersColl := c }
  | BackendCall.deleteUserDoc _ i =>
    (collDeleteById s.usersColl i).map fun c => { s with usersColl := c }
  | BackendCall.upsertPostDoc _ doc =>
    (collUpsert s.postsColl doc).map fun c => { s with postsColl := c }
  | BackendCall.deletePostDoc _ i =>
    (collDeleteById s.postsColl i).map fun c => { s with postsColl := c }

/-- `userToDocument`, line for line: the receiver is unused by the source
function and unused here. -/
def SubscriberService.userToDocument (_s : SubscriberService) (user : User) : Document :=
  [("id", DocValue.str user.Id),
   ("username", DocValue.str user.Username),
   ("name", DocValue.str user.Name),
   ("email", DocValue.str user.Email),
   ("bio", DocValue.str user.Bio),
   ("picture", DocValue.str user.Picture),
   ("school", DocValue.str user.School),
   ("country", DocValue.str user.Country),
   ("campus", DocValue.str user.Campus),
   ("info_updated", DocValue.bool user.InfoUpdated),
   ("program", DocValue.str user.Program),
   ("year", DocValue.int user.Year),
   ("created_at", DocValue.int user.CreatedAt.Unix),
   ("updated_at", DocValue.int user.UpdatedAt.Unix)]

/-- `postToDocument`, line for line. -/
def SubscriberService.postToDocument (_s : SubscriberService) (post : Post) : Document :=
  [("id", DocValue.str post.Id),
   ("user_id", DocValue.str post.UserId),
   ("user_name", DocValue.str post.Username),
   ("user_picture", DocValue.str post.UserPicture),
   ("user_bio", DocValue.str post.UserBio),
   ("user_programme", DocValue.str post.UserProgramme),
   ("user_year", DocValue.int post.UserYear),
   ("user_campus", DocValue.str post.UserCampus),
   ("subject", DocValue.str post.Subject),
   ("title", DocValue.str post.Title),
   ("content", DocValue.str post.Content),
   ("images", DocValue.strList post.Images),
   ("created_at", DocValue.int post.CreatedAt.Unix),
   ("updated_at", DocValue.int post.UpdatedAt.Unix)]

/-- Everything observable from one handler invocation: the index state it
leaves behind, the backend calls it issued, and the messages it logged. -/
structure HandlerResult where
  state : SubscriberService
  calls : List BackendCall
  logs : List String
deriving DecidableEq, Repr

/-- The `users.created` message callback. -/
def SubscriberService.handleUserCreated (s : SubscriberService)
    (data : Option Json) : HandlerResult :=
  match unmarshalUser data with
  | Except.error _ =>
    ⟨s, [], ["new user created event received", "failed to unmarshal user"]⟩
  | Except.ok user =>
    let call := BackendCall.createUserDoc GoContext.background (s.userToDocument user)
    match s.applyCall call with
    | Except.error _ =>
      ⟨s, [call], ["new user created event received", "failed to create user in Typesense"]⟩
    | Except.ok s2 =>
      ⟨s2, [call], ["new user created event received", "created user in search index"]⟩

/-- The `users.updated` message callback. -/
def SubscriberService.handleUserUpdated (s : SubscriberService)
    (data : Option Json) : HandlerResult :=
  match unmarshalUser data with
  | Except.error _ =>
    ⟨s, [], ["user updated event received", "failed to unmarshal user"]⟩
  | Except.ok user =>
    let call := BackendCall.upsertUserDoc GoContext.background (s.userToDocument user)
    match s.applyCall call with
    | Except.error _ =>
      ⟨s, [call], ["user updated event received", "failed to update user in Typesense"]⟩
    | Except.ok s2 =>
      ⟨s2, [call], ["user updated event received", "updated user in search index"]⟩

/-- The `users.deleted` message callback. -/
def SubscriberService.handleUserDeleted (s : SubscriberService)
    (data : Option Json) : HandlerResult :=
  match unmarshalDeleteEvent data with
  | Except.error _ =>
    ⟨s, [], ["user deleted event received", "failed to unmarshal delete event"]⟩
  | Except.ok ev =>
    let call := BackendCall.deleteUserDoc GoContext.background ev.Id
    match s.applyCall call with
    | Except.error _ =>
      ⟨s, [call], ["user deleted event received", "failed to delete user from Typesense"]⟩
    | Except.ok s2 =>
      ⟨s2, [call], ["user deleted event received", "deleted user from search index"]⟩

/-- The `posts.upsert` message callback. -/
def SubscriberService.handlePostUpsert (s : SubscriberService)
    (data : Option Json) : HandlerResult :=
  match unmarshalPost data with
  | Except.error _ =>
    ⟨s, [], ["post upsert event received", "failed to unmarshal post"]⟩
  | Except.ok post =>
    let call := BackendCall.upsertPostDoc GoContext.background (s.postToDocument post)
    match s.applyCall call with
    | Except.error _ =>
      ⟨s, [call], ["post upsert event received", "failed to upsert post in Typesense"]⟩
    | Except.ok s2 =>
      ⟨s2, [call], ["post upsert event received", "upserted post in search index"]⟩

/-- The `posts.deleted` message callback. -/
def SubscriberService.handlePostDeleted (s : SubscriberService)
    (data : Option Json) : HandlerResult :=
  match unmarshalDeleteEvent data with
  | Except.error _ =>
    ⟨s, [], ["post deleted event received", "failed to unmarshal delete event"]⟩
  | Except.ok ev =>
    let call := BackendCall.deletePostDoc GoContext.background ev.Id
    match s.applyCall call with
    | Except.error _ =>
      ⟨s, [call], ["post deleted event received", "failed to delete post from Typesense"]⟩
    | Except.ok s2 =>
      ⟨s2, [call], ["post deleted event received", "deleted post from search index"]⟩

/-- The five subjects bound by `setupSubscriptions`, in registration
order. -/
def subjects : List String :=
  ["users.created", "users.updated", "users.deleted", "posts.upsert", "posts.deleted"]

/-- Subject-to-handler binding established by `setupSubscriptions`: the
NATS client invokes the bound callback for a message on a subject, and no
callback exists for any other subject. -/
def SubscriberService.dispatch (s : SubscriberService) (subject : String)
    (data : Option Json) : Option HandlerResult :=
  if subject = "users.created" then some (s.handleUserCreated data)
  else if subject = "users.updated" then some (s.handleUserUpdated data)
  else if subject = "users.deleted" then some (s.handleUserDeleted data)
  else if subject = "posts.upsert" then some (s.handlePostUpsert data)
  else if subject = "posts.deleted" then some (s.handlePostDeleted data)
  else none

/-- `setupSubscriptions`, with `env subj` the success of
`natsConn.Subscribe` on `subj`: each of the five registrations calls
`os.Exit(1)` on failure (modelled as `none`), so the steady listening
state (`some`) carries the full subject list or is never reached. -/
def setupSubscriptions (env : String → Bool) : Option (List String) :=
  if env ("users.created") then
    if env ("users.updated") then
      if env ("users.deleted") then
        if env ("posts.upsert") then
          if env ("posts.deleted") then some subjects
          else none
        else none
      else none
    else none
  else none

/-- JSON kinds accepted into a `string` field. -/
def jsonOkString : Json → Bool
  | Json.null => true
  | Json.str _ => true
  | _ => false

def jsonOkBool : Json → Bool
  | Json.null => true
  | Json.bool _ => true
  | _ => false

def jsonOkInt32 : Json → Bool
  | Json.null => true
  | Json.num n => decide (-2147483648 ≤ n ∧ n ≤ 2147483647)
  | _ => false

def jsonOkTime : Json → Bool
  | Json.null => true
  | Json.str s => (parseRFC3339 s).isSome
  | _ => false

def jsonOkStrList : Json → Bool
  | Json.null => true
  | Json.arr es => es.all jsonOkString
  | _ => false

/-- Whether a JSON value is acceptable for the `User` field a key selects;
keys selecting no field accept anything. -/
def userValueOk (k : String) (v : Json) : Bool :=
  if foldKey k = "id" then jsonOkString v
  else if foldKey k = "username" then jsonOkString v
  else if foldKey k = "name" then jsonOkString v
  else if foldKey k = "email" then jsonOkString v
  else if foldKey k = "bio" then jsonOkString v
  else if foldKey k = "picture" then jsonOkString v
  else if foldKey k = "school" then jsonOkString v
  else if foldKey k = "country" then jsonOkString v
  else if foldKey k = "campus" then jsonOkString v
  else if foldKey k = "info_updated" then jsonOkBool v
  else if foldKey k = "program" then jsonOkString v
  else if foldKey k = "year" then jsonOkInt32 v
  else if foldKey k = "created_at" then jsonOkTime v
  else if foldKey k = "updated_at" then jsonOkTime v
  else true

/-- Whether a JSON value is acceptable for the `Post` field a key
selects. -/
def postValueOk (k : String) (v : Json) : Bool :=
  if foldKey k = "id" then jsonOkString v
  else if foldKey k = "user_id" then jsonOkString v
  else if foldKey k = "username" then jsonOkString v
  else if foldKey k = "user_picture" then jsonOkString v
  else if foldKey k = "user_bio" then jsonOkString v
  else if foldKey k = "user_programme" then jsonOkString v
  else if foldKey k = "user_year" then jsonOkInt32 v
  else if foldKey k = "user_campus" then jsonOkString v
  else if foldKey k = "subject" then jsonOkString v
  else if foldKey k = "title" then jsonOkString v
  else if foldKey k = "content" then jsonOkString v
  else if foldKey k = "images" then jsonOkStrList v
  else if foldKey k = "created_at" then jsonOkTime v
  else if foldKey k = "updated_at" then jsonOkTime v
  else true

def deleteValueOk (k : String) (v : Json) : Bool :=
  if foldKey k = "id" then jsonOkString v else true

lemma exceptOk_ok (a : α) : exceptOk (Except.ok a : Except String α) = true := rfl

lemma exceptOk_error (e : String) :
    exceptOk (Except.error e : Except String α) = false := rfl

lemma exceptOk_map (x : Except String α) (f : α → β) :
    exceptOk (x.map f) = exceptOk x := by
  cases x <;> rfl

lemma decGoString_isOk (cur : String) (v : Json) :
    exceptOk (decGoString cur v) = jsonOkString v := by
  cases v <;> rfl

lemma decGoBool_isOk (cur : Bool) (v : Json) :
    exceptOk (decGoBool cur v) = jsonOkBool v := by
  cases v <;> rfl

lemma decGoInt32_isOk (cur : Int) (v : Json) :
    exceptOk (decGoInt32 cur v) = jsonOkInt32 v := by
  cases v with
  | num n =>
    by_cases h : -2147483648 ≤ n ∧ n ≤ 2147483647 <;>
      simp [decGoInt32, jsonOkInt32, exceptOk, h]
  | _ => rfl

lemma decGoTime_isOk (cur : GoTime) (v : Json) :
    exceptOk (decGoTime cur v) = jsonOkTime v := by
  cases v with
  | str s => cases h : parseRFC3339 s <;> simp [decGoTime, jsonOkTime, exceptOk, h]
  | _ => rfl

lemma decGoStrElems_isOk (es : List Json) :
    exceptOk (decGoStrElems es) = es.all jsonOkString := by
  induction es with
  | nil => rfl
  | cons e es ih =>
    cases e <;>
      simp [decGoStrElems, decGoStrElem, jsonOkString, exceptOk_map, ih,
        List.all_cons, exceptOk_ok, exceptOk_error]

lemma decGoStrList_isOk (cur : List String) (v : Json) :
    exceptOk (decGoStrList cur v) = jsonOkStrList v := by
  cases v with
  | arr es => simp [decGoStrList, jsonOkStrList, decGoStrElems_isOk]
  | _ => rfl

set_option maxHeartbeats 1000000 in
lemma setUserField_isOk (u : User) (k : String) (v : Json) :
    exceptOk (setUserField u k v) = userValueOk k v := by
  unfold setUserField userValueOk
  simp only [apply_ite exceptOk, exceptOk_map, exceptOk_ok, decGoString_isOk,
    decGoBool_isOk, decGoInt32_isOk, decGoTime_isOk, decGoStrList_isOk]

set_option maxHeartbeats 1000000 in
lemma setPostField_isOk (p : Post) (k : String) (v : Json) :
    exceptOk (setPostField p k v) = postValueOk k v := by
  unfold setPostField postValueOk
  simp only [apply_ite exceptOk, exceptOk_map, exceptOk_ok, decGoString_isOk,
    decGoBool_isOk, decGoInt32_isOk, decGoTime_isOk, decGoStrList_isOk]

lemma setDeleteField_isOk (r : DeleteEvent) (k : String) (v : Json) :
    exceptOk (setDeleteField r k v) = deleteValueOk k v := by
  unfold setDeleteField deleteValueOk
  simp only [apply_ite exceptOk, exceptOk_map, exceptOk_ok, decGoString_isOk]

lemma unmarshalUserObj_isOk (fields : List (String × Json)) : ∀ u : User,
    exceptOk (unmarshalUserObj u fields) =
      fields.all fun kv => userValueOk kv.1 kv.2 := by
  induction fields with
  | nil => intro u; rfl
  | cons kv rest ih =>
    intro u
    obtain ⟨k, v⟩ := kv
    have h := setUserField_isOk u k v
    cases hs : setUserField u k v with
    | error e =>
      rw [hs] at h
      have hv : userValueOk k v = false := by rw [← h]; rfl
      simp [unmarshalUserObj, hs, List.all_cons, hv, exceptOk]
    | ok u2 =>
      rw [hs] at h
      have hv : userValueOk k v = true := by rw [← h]; rfl
      simp only [unmarshalUserObj, hs, List.all_cons, hv, Bool.true_and]
      exact ih u2

lemma unmarshalPostObj_isOk (fields : List (String × Json)) : ∀ p : Post,
    exceptOk (unmarshalPostObj p fields) =
      fields.all fun kv => postValueOk kv.1 kv.2 := by
  induction fields with
  | nil => intro p; rfl
  | cons kv rest ih =>
    intro p
    obtain ⟨k, v⟩ := kv
    have h := setPostField_isOk p k v
    cases hs : setPostField p k v with
    | error e =>
      rw [hs] at h
      have hv : postValueOk k v = false := by rw [← h]; rfl
      simp [unmarshalPostObj, hs, List.all_cons, hv, exceptOk]
    | ok p2 =>
      rw [hs] at h
      have hv : postValueOk k v = true := by rw [← h]; rfl
      simp only [unmarshalPostObj, hs, List.all_cons, hv, Bool.true_and]
      exact ih p2

/-- The delete-event decoder only reads bindings whose folded key is
`id`; every other binding is skipped without effect. -/
lemma unmarshalDeleteObj_filter (fields : List (String × Json)) :
    ∀ r : DeleteEvent,
    unmarshalDeleteObj r fields =
      unmarshalDeleteObj r (fields.filter fun kv => foldKey kv.1 == "id") := by
  induction fields with
  | nil => intro r; rfl
  | cons kv rest ih =>
    intro r
    obtain ⟨k, v⟩ := kv
    by_cases hk : foldKey k = "id"
    · cases hs : setDeleteField r k v with
      | error e => simp [unmarshalDeleteObj, List.filter_cons, hk, hs]
      | ok r2 => simp [unmarshalDeleteObj, List.filter_cons, hk, hs, ih r2]
    · have hskip : setDeleteField r k v = Except.ok r := by
        simp [setDeleteField, hk]
      simp [unmarshalDeleteObj, List.filter_cons, hk, hskip, ih r]

def userDocKeys : List String :=
  ["id", "username", "name", "email", "bio", "picture", "school", "country",
   "campus", "info_updated", "program", "year", "created_at", "updated_at"]

def postDocKeys : List String :=
  ["id", "user_id", "user_name", "user_picture", "user_bio", "user_programme",
   "user_year", "user_campus", "subject", "title", "content", "images",
   "created_at", "updated_at"]

/-- A service whose users collection already holds a document under the
empty-string id: `create` for the zero user collides with it. -/
def dupService : SubscriberService := ⟨[("", [])], []⟩

lemma exceptOk_false_iff (x : Except String α) :
    exceptOk x = false ↔ ∃ e, x = Except.error e := by
  cases x <;> simp [exceptOk]

lemma exceptMap_eq_ok {x : Except String α} {f : α → β} {b : β}
    (h : x.map f = Except.ok b) : ∃ a, x = Except.ok a ∧ b = f a := by
  cases x with
  | ok a =>
    refine ⟨a, rfl, ?_⟩
    injection h with h2
    exact h2.symm
  | error e => cases h

lemma handleUserCreated_decodeFail (s : SubscriberService) (d : Option Json)
    (e : String) (hu : unmarshalUser d = Except.error e) :
    s.handleUserCreated d =
      ⟨s, [], ["new user created event received", "failed to unmarshal user"]⟩ := by
  simp [SubscriberService.handleUserCreated, hu]

lemma handleUserUpdated_decodeFail (s : SubscriberService) (d : Option Json)
    (e : String) (hu : unmarshalUser d = Except.error e) :
    s.handleUserUpdated d =
      ⟨s, [], ["user updated event received", "failed to unmarshal user"]⟩ := by
  simp [SubscriberService.handleUserUpdated, hu]

lemma handleUserDeleted_decodeFail (s : SubscriberService) (d : Option Json)
    (e : String) (hu : unmarshalDeleteEvent d = Except.error e) :
    s.handleUserDeleted d =
      ⟨s, [], ["user deleted event received", "failed to unmarshal delete event"]⟩ := by
  simp [SubscriberService.handleUserDeleted, hu]

lemma handlePostUpsert_decodeFail (s : SubscriberService) (d : Option Json)
    (e : String) (hu : unmarshalPost d = Except.error e) :
    s.handlePostUpsert d =
      ⟨s, [], ["post upsert event received", "failed to unmarshal post"]⟩ := by
  simp [SubscriberService.handlePostUpsert, hu]

lemma handlePostDeleted_decodeFail (s : SubscriberService) (d : Option Json)
    (e : String) (hu : unmarshalDeleteEvent d = Except.error e) :
    s.handlePostDeleted d =
      ⟨s, [], ["post deleted event received", "failed to unmarshal delete event"]⟩ := by
  simp [SubscriberService.handlePostDeleted, hu]

lemma handleUserCreated_applyFail (s : SubscriberService) (d : Option Json)
    (u : User) (e : String) (hu : unmarshalUser d = Except.ok u)
    (ha : s.applyCall (BackendCall.createUserDoc GoContext.background
      (s.userToDocument u)) = Except.error e) :
    s.handleUserCreated d =
      ⟨s, [BackendCall.createUserDoc GoContext.background (s.userToDocument u)],
       ["new user created event received", "failed to create user in Typesense"]⟩ := by
  simp [SubscriberService.handleUserCreated, hu, ha]

lemma handleUserUpdated_applyFail (s : SubscriberService) (d : Option Json)
    (u : User) (e : String) (hu : unmarshalUser d = Except.ok u)
    (ha : s.applyCall (BackendCall.upsertUserDoc GoContext.background
      (s.userToDocument u)) = Except.error e) :
    s.handleUserUpdated d =
      ⟨s, [BackendCall.upsertUserDoc GoContext.background (s.userToDocument u)],
       ["user updated event received", "failed to update user in Typesense"]⟩ := by
  simp [SubscriberService.handleUserUpdated, hu, ha]

lemma handleUserDeleted_applyFail (s : SubscriberService) (d : Option Json)
    (r : DeleteEvent) (e : String) (hu : unmarshalDeleteEvent d = Except.ok r)
    (ha : s.applyCall (BackendCall.deleteUserDoc GoContext.background r.Id) =
      Except.error e) :
    s.handleUserDeleted d =
      ⟨s, [BackendCall.deleteUserDoc GoContext.background r.Id],
       ["user deleted event received", "failed to delete user from Typesense"]⟩ := by
  simp [SubscriberService.handleUserDeleted, hu, ha]

lemma handlePostUpsert_applyFail (s : SubscriberService) (d : Option Json)
    (p : Post) (e : String) (hu : unmarshalPost d = Except.ok p)
    (ha : s.applyCall (BackendCall.upsertPostDoc GoContext.background
      (s.postToDocument p)) = Except.error e) :
    s.handlePostUpsert d =
      ⟨s, [BackendCall.upsertPostDoc GoContext.background (s.postToDocument p)],
       ["post upsert event received", "failed to upsert post in Typesense"]⟩ := by
  simp [SubscriberService.handlePostUpsert, hu, ha]

lemma handlePostDeleted_applyFail (s : SubscriberService) (d : Option Json)
    (r : DeleteEvent) (e : String) (hu : unmarshalDeleteEvent d = Except.ok r)
    (ha : s.applyCall (BackendCall.deletePostDoc GoContext.background r.Id) =
      Except.error e) :
    s.handlePostDeleted d =
      ⟨s, [BackendCall.deletePostDoc GoContext.background r.Id],
       ["post deleted event received", "failed to delete post from Typesense"]⟩ := by
  simp [SubscriberService.handlePostDeleted, hu, ha]

lemma handleUserCreated_calls_of_ok (s : SubscriberService) (d : Option Json)
    (u : User) (hu : unmarshalUser d = Except.ok u) :
    (s.handleUserCreated d).calls =
      [BackendCall.createUserDoc GoContext.background (s.userToDocument u)] := by
  simp only [SubscriberService.handleUserCreated, hu]
  cases hc : s.applyCall (BackendCall.createUserDoc GoContext.background
    (s.userToDocument u)) <;> simp [hc]

lemma handleUserUpdated_calls_of_ok (s : SubscriberService) (d : Option Json)
    (u : User) (hu : unmarshalUser d = Except.ok u) :
    (s.handleUserUpdated d).calls =
      [BackendCall.upsertUserDoc GoContext.background (s.userToDocument u)] := by
  simp only [SubscriberService.handleUserUpdated, hu]
  cases hc : s.applyCall (BackendCall.upsertUserDoc GoContext.background
    (s.userToDocument u)) <;> simp [hc]

lemma handleUserDeleted_calls_of_ok (s : SubscriberService) (d : Option Json)
    (r : DeleteEvent) (hu : unmarshalDeleteEvent d = Except.ok r) :
    (s.handleUserDeleted d).calls =
      [BackendCall.deleteUserDoc GoContext.background r.Id] := by
  simp only [SubscriberService.handleUserDeleted, hu]
  cases hc : s.applyCall (BackendCall.deleteUserDoc GoContext.background r.Id) <;>
    simp [hc]

lemma handlePostUpsert_calls_of_ok (s : SubscriberService) (d : Option Json)
    (p : Post) (hu : unmarshalPost d = Except.ok p) :
    (s.handlePostUpsert d).calls =
      [BackendCall.upsertPostDoc GoContext.background (s.postToDocument p)] := by
  simp only [SubscriberService.handlePostUpsert, hu]
  cases hc : s.applyCall (BackendCall.upsertPostDoc GoContext.background
    (s.postToDocument p)) <;> simp [hc]

lemma handlePostDeleted_calls_of_ok (s : SubscriberService) (d : Option Json)
    (r : DeleteEvent) (hu : unmarshalDeleteEvent d = Except.ok r) :
    (s.handlePostDeleted d).calls =
      [BackendCall.deletePostDoc GoContext.background r.Id] := by
  simp only [SubscriberService.handlePostDeleted, hu]
  cases hc : s.applyCall (BackendCall.deletePostDoc GoContext.background r.Id) <;>
    simp [hc]

lemma handleUserCreated_calls_len (s : SubscriberService) (d : Option Json) :
    (s.handleUserCreated d).calls.length ≤ 1 := by
  cases hu : unmarshalUser d with
  | error e => rw [handleUserCreated_decodeFail s d e hu]; simp
  | ok u => rw [handleUserCreated_calls_of_ok s d u hu]; simp

lemma handleUserUpdated_calls_len (s : SubscriberService) (d : Option Json) :
    (s.handleUserUpdated d).calls.length ≤ 1 := by
  cases hu : unmarshalUser d with
  | error e => rw [handleUserUpdated_decodeFail s d e hu]; simp
  | ok u => rw [handleUserUpdated_calls_of_ok s d u hu]; simp

lemma handleUserDeleted_calls_len (s : SubscriberService) (d : Option Json) :
    (s.handleUserDeleted d).calls.length ≤ 1 := by
  cases hu : unmarshalDeleteEvent d with
  | error e => rw [handleUserDeleted_decodeFail s d e hu]; simp
  | ok r => rw [handleUserDeleted_calls_of_ok s d r hu]; simp

lemma handlePostUpsert_calls_len (s : SubscriberService) (d : Option Json) :
    (s.handlePostUpsert d).calls.length ≤ 1 := by
  cases hu : unmarshalPost d with
  | error e => rw [handlePostUpsert_decodeFail s d e hu]; simp
  | ok p => rw [handlePostUpsert_calls_of_ok s d p hu]; simp

lemma handlePostDeleted_calls_len (s : SubscriberService) (d : Option Json) :
    (s.handlePostDeleted d).calls.length ≤ 1 := by
  cases hu : unmarshalDeleteEvent d with
  | error e => rw [handlePostDeleted_decodeFail s d e hu]; simp
  | ok r => rw [handlePostDeleted_calls_of_ok s d r hu]; simp

lemma handleUserCreated_ctx (s : SubscriberService) (d : Option Json) :
    ∀ c ∈ (s.handleUserCreated d).calls, c.ctxOf = GoContext.background := by
  intro c hc
  cases hu : unmarshalUser d with
  | error e => rw [handleUserCreated_decodeFail s d e hu] at hc; cases hc
  | ok u =>
    rw [handleUserCreated_calls_of_ok s d u hu] at hc
    simp at hc
    rw [hc]
    rfl

lemma handleUserUpdated_ctx (s : SubscriberService) (d : Option Json) :
    ∀ c ∈ (s.handleUserUpdated d).calls, c.ctxOf = GoContext.background := by
  intro c hc
  cases hu : unmarshalUser d with
  | error e => rw [handleUserUpdated_decodeFail s d e hu] at hc; cases hc
  | ok u =>
    rw [handleUserUpdated_calls_of_ok s d u hu] at hc
    simp at hc
    rw [hc]
    rfl

lemma handleUserDeleted_ctx (s : SubscriberService) (d : Option Json) :
    ∀ c ∈ (s.handleUserDeleted d).calls, c.ctxOf = GoContext.background := by
  intro c hc
  cases hu : unmarshalDeleteEvent d with
  | error e => rw [handleUserDeleted_decodeFail s d e hu] at hc; cases hc
  | ok r =>
    rw [handleUserDeleted_calls_of_ok s d r hu] at hc
    simp at hc
    rw [hc]
    rfl

lemma handlePostUpsert_ctx (s : SubscriberService) (d : Option Json) :
    ∀ c ∈ (s.handlePostUpsert d).calls, c.ctxOf = GoContext.background := by
  intro c hc
  cases hu : unmarshalPost d with
  | error e => rw [handlePostUpsert_decodeFail s d e hu] at hc; cases hc
  | ok p =>
    rw [handlePostUpsert_calls_of_ok s d p hu] at hc
    simp at hc
    rw [hc]
    rfl

lemma handlePostDeleted_ctx (s : SubscriberService) (d : Option Json) :
    ∀ c ∈ (s.handlePostDeleted d).calls, c.ctxOf = GoContext.background := by
  intro c hc
  cases hu : unmarshalDeleteEvent d with
  | error e => rw [handlePostDeleted_decodeFail s d e hu] at hc; cases hc
  | ok r =>
    rw [handlePostDeleted_calls_of_ok s d r hu] at hc
    simp at hc
    rw [hc]
    rfl

lemma applyCall_userCall_postsColl (s s2 : SubscriberService) (call : BackendCall)
    (hdoc : (∃ g doc, call = BackendCall.createUserDoc g doc) ∨
      (∃ g doc, call = BackendCall.upsertUserDoc g doc) ∨
      (∃ g i, call = BackendCall.deleteUserDoc g i))
    (h : s.applyCall call = Except.ok s2) : s2.postsColl = s.postsColl := by
  rcases hdoc with ⟨g, doc, rfl⟩ | ⟨g, doc, rfl⟩ | ⟨g, i, rfl⟩ <;>
    · obtain ⟨c, _, hs2⟩ := exceptMap_eq_ok h
      rw [hs2]

lemma applyCall_postCall_usersColl (s s2 : SubscriberService) (call : BackendCall)
    (hdoc : (∃ g doc, call = BackendCall.upsertPostDoc g doc) ∨
      (∃ g i, call = BackendCall.deletePostDoc g i))
    (h : s.applyCall call = Except.ok s2) : s2.usersColl = s.usersColl := by
  rcases hdoc with ⟨g, doc, rfl⟩ | ⟨g, i, rfl⟩ <;>
    · obtain ⟨c, _, hs2⟩ := exceptMap_eq_ok h
      rw [hs2]

lemma handleUserCreated_postsColl (s : SubscriberService) (d : Option Json) :
    (s.handleUserCreated d).state.postsColl = s.postsColl := by
  unfold SubscriberService.handleUserCreated
  cases hu : unmarshalUser d with
  | error e => rfl
  | ok u =>
    simp only []
    cases hc : s.applyCall (BackendCall.createUserDoc GoContext.background
      (s.userToDocument u)) with
    | error e => rfl
    | ok s2 =>
      exact applyCall_userCall_postsColl s s2 _ (Or.inl ⟨_, _, rfl⟩) hc

lemma handleUserUpdated_postsColl (s : SubscriberService) (d : Option Json) :
    (s.handleUserUpdated d).state.postsColl = s.postsColl := by
  unfold SubscriberService.handleUserUpdated
  cases hu : unmarshalUser d with
  | error e => rfl
  | ok u =>
    simp only []
    cases hc : s.applyCall (BackendCall.upsertUserDoc GoContext.background
      (s.userToDocument u)) with
    | error e => rfl
    | ok s2 =>
      exact applyCall_userCall_postsColl s s2 _ (Or.inr (Or.inl ⟨_, _, rfl⟩)) hc

lemma handleUserDeleted_postsColl (s : SubscriberService) (d : Option Json) :
    (s.handleUserDeleted d).state.postsColl = s.postsColl := by
  unfold SubscriberService.handleUserDeleted
  cases hu : unmarshalDeleteEvent d with
  | error e => rfl
  | ok r =>
    simp only []
    cases hc : s.applyCall (BackendCall.deleteUserDoc GoContext.background r.Id) with
    | error e => rfl
    | ok s2 =>
      exact applyCall_userCall_postsColl s s2 _ (Or.inr (Or.inr ⟨_, _, rfl⟩)) hc

lemma handlePostUpsert_usersColl (s : SubscriberService) (d : Option Json) :
    (s.handlePostUpsert d).state.usersColl = s.usersColl := by
  unfold SubscriberService.handlePostUpsert
  cases hu : unmarshalPost d with
  | error e => rfl
  | ok p =>
    simp only []
    cases hc : s.applyCall (BackendCall.upsertPostDoc GoContext.background
      (s.postToDocument p)) with
    | error e => rfl
    | ok s2 =>
      exact applyCall_postCall_usersColl s s2 _ (Or.inl ⟨_, _, rfl⟩) hc

lemma handlePostDeleted_usersColl (s : SubscriberService) (d : Option Json) :
    (s.handlePostDeleted d).state.usersColl = s.usersColl := by
  unfold SubscriberService.handlePostDeleted
  cases hu : unmarshalDeleteEvent d with
  | error e => rfl
  | ok r =>
    simp only []
    cases hc : s.applyCall (BackendCall.deletePostDoc GoContext.background r.Id) with
    | error e => rfl
    | ok s2 =>
      exact applyCall_postCall_usersColl s s2 _ (Or.inr ⟨_, _, rfl⟩) hc

/-- Claim C1, counterexample: the empty JSON object is a payload missing
every required field, yet decoding succeeds with the all-zero record whose
id is the empty string, and both the user-created and post-upsert handlers
proceed past the decode step and issue a backend call. -/
theorem claim_c1_cex :
    unmarshalUser (some (Json.obj [])) = Except.ok User.zero ∧
    User.zero.Id = "" ∧
    (emptyService.handleUserCreated (some (Json.obj []))).calls ≠ [] ∧
    unmarshalPost (some (Json.obj [])) = Except.ok Post.zero ∧
    Post.zero.Id = "" ∧
    (emptyService.handlePostUpsert (some (Json.obj []))).calls ≠ [] := by
  refine ⟨by decide, rfl, by decide, by decide, rfl, by decide⟩

/-- Claim C1, amended: decoding an object payload fails exactly when some
present field has a value unacceptable for the field its key selects (a
kind or range mismatch); a payload merely missing required fields, such as
the empty object, decodes successfully into the zero record with a
zero-valued id, and the handler then proceeds past the decode step and
issues a backend call. -/
theorem claim_c1_amended :
    (∀ fields : List (String × Json),
      exceptOk (unmarshalUser (some (Json.obj fields))) =
        (fields.all fun kv => userValueOk kv.1 kv.2)) ∧
    (∀ fields : List (String × Json),
      exceptOk (unmarshalPost (some (Json.obj fields))) =
        (fields.all fun kv => postValueOk kv.1 kv.2)) ∧
    unmarshalUser (some (Json.obj [])) = Except.ok User.zero ∧
    User.zero.Id = "" ∧
    ∀ s : SubscriberService,
      (s.handleUserCreated (some (Json.obj []))).calls.length = 1 := by
  refine ⟨?_, ?_, by decide, rfl, ?_⟩
  · intro fields
    exact unmarshalUserObj_isOk fields User.zero
  · intro fields
    exact unmarshalPostObj_isOk fields Post.zero
  · intro s
    rw [handleUserCreated_calls_of_ok s (some (Json.obj [])) User.zero (by decide)]
    rfl

/-- Claim C3: for every user and post record with well-formed timestamps,
the mapped created_at and updated_at document values are the integer
epoch-seconds value of the input timestamp truncated to the second (the
total nanosecond count floor-divided by one billion). -/
theorem claim_c3 : ∀ (s : SubscriberService) (u : User) (p : Post),
    u.CreatedAt.WF → u.UpdatedAt.WF → p.CreatedAt.WF → p.UpdatedAt.WF →
    (s.userToDocument u).lookup ("created_at") =
      some (DocValue.int (truncSeconds u.CreatedAt)) ∧
    (s.userToDocument u).lookup ("updated_at") =
      some (DocValue.int (truncSeconds u.UpdatedAt)) ∧
    (s.postToDocument p).lookup ("created_at") =
      some (DocValue.int (truncSeconds p.CreatedAt)) ∧
    (s.postToDocument p).lookup ("updated_at") =
      some (DocValue.int (truncSeconds p.UpdatedAt)) := by
  intro s u p h1 h2 h3 h4
  have key : ∀ t : GoTime, t.WF → truncSeconds t = t.Unix := by
    intro t ht
    unfold truncSeconds GoTime.Unix
    omega
  rw [key _ h1, key _ h2, key _ h3, key _ h4]
  exact ⟨rfl, rfl, rfl, rfl⟩

/-- Witness for C3 at a concrete record with a maximal nanosecond part:
the mapped value is the truncated second 100, not a rounded 101. -/
theorem claim_c3_witness :
    GoTime.WF ⟨100, 999999999⟩ ∧
    (emptyService.userToDocument
        { User.zero with CreatedAt := ⟨100, 999999999⟩ }).lookup ("created_at") =
      some (DocValue.int 100) := by
  constructor
  · decide
  · have h := (claim_c3 emptyService
      { User.zero with CreatedAt := ⟨100, 999999999⟩ } Post.zero
      (by decide) (by decide) (by decide) (by decide)).1
    rw [h]
    decide

/-- Claim C4: for every record the user document carries exactly the
fourteen users-schema keys and the post document exactly the fourteen
posts-schema keys, each mapped from the corresponding record field; every
key is present for every record (so absent optional inputs surface as
their zero values, never as missing keys), and the images list passes
through unchanged. -/
theorem claim_c4 : ∀ (s : SubscriberService) (u : User) (p : Post),
    (s.userToDocument u).map Prod.fst = userDocKeys ∧
    (s.userToDocument u).lookup ("id") = some (DocValue.str u.Id) ∧
    (s.userToDocument u).lookup ("username") = some (DocValue.str u.Username) ∧
    (s.userToDocument u).lookup ("name") = some (DocValue.str u.Name) ∧
    (s.userToDocument u).lookup ("email") = some (DocValue.str u.Email) ∧
    (s.userToDocument u).lookup ("bio") = some (DocValue.str u.Bio) ∧
    (s.userToDocument u).lookup ("picture") = some (DocValue.str u.Picture) ∧
    (s.userToDocument u).lookup ("school") = some (DocValue.str u.School) ∧
    (s.userToDocument u).lookup ("country") = some (DocValue.str u.Country) ∧
    (s.userToDocument u).lookup ("campus") = some (DocValue.str u.Campus) ∧
    (s.userToDocument u).lookup ("info_updated") = some (DocValue.bool u.InfoUpdated) ∧
    (s.userToDocument u).lookup ("program") = some (DocValue.str u.Program) ∧
    (s.userToDocument u).lookup ("year") = some (DocValue.int u.Year) ∧
    (s.userToDocument u).lookup ("created_at") = some (DocValue.int u.CreatedAt.Unix) ∧
    (s.userToDocument u).lookup ("updated_at") = some (DocValue.int u.UpdatedAt.Unix) ∧
    (s.postToDocument p).map Prod.fst = postDocKeys ∧
    (s.postToDocument p).lookup ("id") = some (DocValue.str p.Id) ∧
    (s.postToDocument p).lookup ("user_id") = some (DocValue.str p.UserId) ∧
    (s.postToDocument p).lookup ("user_name") = some (DocValue.str p.Username) ∧
    (s.postToDocument p).lookup ("user_picture") = some (DocValue.str p.UserPicture) ∧
    (s.postToDocument p).lookup ("user_bio") = some (DocValue.str p.UserBio) ∧
    (s.postToDocument p).lookup ("user_programme") = some (DocValue.str p.UserProgramme) ∧
    (s.postToDocument p).lookup ("user_year") = some (DocValue.int p.UserYear) ∧
    (s.postToDocument p).lookup ("user_campus") = some (DocValue.str p.UserCampus) ∧
    (s.postToDocument p).lookup ("subject") = some (DocValue.str p.Subject) ∧
    (s.postToDocument p).lookup ("title") = some (DocValue.str p.Title) ∧
    (s.postToDocument p).lookup ("content") = some (DocValue.str p.Content) ∧
    (s.postToDocument p).lookup ("images") = some (DocValue.strList p.Images) ∧
    (s.postToDocument p).lookup ("created_at") = some (DocValue.int p.CreatedAt.Unix) ∧
    (s.postToDocument p).lookup ("updated_at") = some (DocValue.int p.UpdatedAt.Unix) := by
  intro s u p
  refine ⟨rfl, rfl, rfl, rfl, rfl, rfl, rfl, rfl, rfl, rfl, rfl, rfl, rfl, rfl, rfl,
    rfl, rfl, rfl, rfl, rfl, rfl, rfl, rfl, rfl, rfl, rfl, rfl, rfl, rfl, rfl⟩

/-- Claim C5: the two mappers are pure functions of the record alone: for
any two service states, mapping the same record yields the identical
document. -/
theorem claim_c5 : ∀ (s1 s2 : SubscriberService) (u : User) (p : Post),
    s1.userToDocument u = s2.userToDocument u ∧
    s1.postToDocument p = s2.postToDocument p :=
  fun _ _ _ _ => ⟨rfl, rfl⟩

/-- Claim C9, counterexample: the backend call issued by the user-created
handler carries `context.Background()`, which is not cancellable, so the
call is not issued with a bounded-context/cancellation handle. -/
theorem claim_c9_cex :
    (emptyService.handleUserCreated (some (Json.obj []))).calls.map
      BackendCall.ctxOf = [GoContext.background] ∧
    GoContext.cancellable GoContext.background = false := by
  refine ⟨by decide, rfl⟩

/-- Claim C9, amended: every backend index call made by any handler is
issued with `context.Background()`, which has no deadline and cannot be
canceled; a shutdown signal therefore cannot abandon in-flight calls
through the context. -/
theorem claim_c9_amended : ∀ (s : SubscriberService) (subj : String)
    (d : Option Json) (res : HandlerResult) (c : BackendCall),
    s.dispatch subj d = some res → c ∈ res.calls →
    c.ctxOf = GoContext.background ∧ GoContext.cancellable c.ctxOf = false := by
  intro s subj d res c hdisp hc
  have hctx : c.ctxOf = GoContext.background := by
    unfold SubscriberService.dispatch at hdisp
    split_ifs at hdisp <;> injection hdisp with hres <;> rw [← hres] at hc
    · exact handleUserCreated_ctx s d c hc
    · exact handleUserUpdated_ctx s d c hc
    · exact handleUserDeleted_ctx s d c hc
    · exact handlePostUpsert_ctx s d c hc
    · exact handlePostDeleted_ctx s d c hc
  exact ⟨hctx, by rw [hctx]; rfl⟩

/-- Witness for C9 (amended) at the user-created handler on the empty
object payload. -/
theorem claim_c9_amended_witness :
    BackendCall.ctxOf (BackendCall.createUserDoc GoContext.background
      (emptyService.userToDocument User.zero)) = GoContext.background ∧
    GoContext.cancellable (BackendCall.ctxOf (BackendCall.createUserDoc
      GoContext.background (emptyService.userToDocument User.zero))) = false :=
  claim_c9_amended emptyService ("users.created") (some (Json.obj []))
    (emptyService.handleUserCreated (some (Json.obj [])))
    (BackendCall.createUserDoc GoContext.background
      (emptyService.userToDocument User.zero))
    rfl (by decide)

/-- Claim C10, counterexample: a bare number and a bare string are
well-formed JSON, yet decoding them as a user or delete event fails; an
object whose `id` field is a number is well-formed JSON, yet decoding
fails on the type mismatch. -/
theorem claim_c10_cex :
    exceptOk (unmarshalUser (some (Json.num 42))) = false ∧
    exceptOk (unmarshalUser (some (Json.obj [("id", Json.num 5)]))) = false ∧
    exceptOk (unmarshalDeleteEvent (some (Json.str ("x")))) = false := by
  refine ⟨by decide, by decide, rfl⟩

/-- Claim C10, amended: handlers perform no validation beyond what
`encoding/json` enforces: every payload that is the literal null, or an
object whose present fields all type-match, decodes successfully with
missing fields taking their zero values; in particular the empty object
decodes to the zero record and the handler proceeds to issue a backend
call even though the decoded id is the empty string. Well-formed JSON of
a non-object kind, or an object with a type-mismatched field, still fails
to decode. -/
theorem claim_c10_amended :
    (∀ fields : List (String × Json),
      (fields.all fun kv => userValueOk kv.1 kv.2) = true →
      exceptOk (unmarshalUser (some (Json.obj fields))) = true) ∧
    unmarshalUser (some Json.null) = Except.ok User.zero ∧
    unmarshalUser (some (Json.obj [])) = Except.ok User.zero ∧
    unmarshalPost (some (Json.obj [])) = Except.ok Post.zero ∧
    unmarshalDeleteEvent (some (Json.obj [])) = Except.ok DeleteEvent.zero ∧
    ∀ s : SubscriberService,
      (s.handleUserCreated (some (Json.obj []))).calls =
        [BackendCall.createUserDoc GoContext.background (s.userToDocument User.zero)] ∧
      (s.handleUserDeleted (some (Json.obj []))).calls =
        [BackendCall.deleteUserDoc GoContext.background ("")] ∧
      (s.userToDocument User.zero).lookup ("id") = some (DocValue.str ("")) := by
  refine ⟨?_, by decide, by decide, by decide, by decide, ?_⟩
  · intro fields h
    rw [show unmarshalUser (some (Json.obj fields)) =
      unmarshalUserObj User.zero fields from rfl]
    rw [unmarshalUserObj_isOk fields User.zero]
    exact h
  · intro s
    refine ⟨handleUserCreated_calls_of_ok s (some (Json.obj [])) User.zero (by decide),
      handleUserDeleted_calls_of_ok s (some (Json.obj [])) DeleteEvent.zero (by decide),
      rfl⟩

/-- Witness for C10 (amended): an object carrying only a username decodes
successfully. -/
theorem claim_c10_amended_witness :
    exceptOk (unmarshalUser (some (Json.obj [("username", Json.str ("alice"))]))) = true :=
  claim_c10_amended.1 [("username", Json.str ("alice"))] (by decide)

/-- Claim C2: dispatch binds exactly the five subjects; user-created
decodes a user and issues a create of the mapped document on the users
collection, user-updated an upsert, user-deleted decodes a delete event
and issues a delete-by-id on the users collection, post-upsert decodes a
post and issues an upsert on the posts collection, post-deleted a
delete-by-id on the posts collection; user subjects never touch the posts
collection and post subjects never touch the users collection. -/
theorem claim_c2 :
    subjects = ["users.created", "users.updated", "users.deleted",
      "posts.upsert", "posts.deleted"] ∧
    (∀ (s : SubscriberService) (subj : String) (d : Option Json),
        (s.dispatch subj d).isSome = true ↔ subj ∈ subjects) ∧
    (∀ (s : SubscriberService) (d : Option Json),
        s.dispatch ("users.created") d = some (s.handleUserCreated d) ∧
        s.dispatch ("users.updated") d = some (s.handleUserUpdated d) ∧
        s.dispatch ("users.deleted") d = some (s.handleUserDeleted d) ∧
        s.dispatch ("posts.upsert") d = some (s.handlePostUpsert d) ∧
        s.dispatch ("posts.deleted") d = some (s.handlePostDeleted d)) ∧
    (∀ (s : SubscriberService) (d : Option Json) (u : User),
        unmarshalUser d = Except.ok u →
        (s.handleUserCreated d).calls =
          [BackendCall.createUserDoc GoContext.background (s.userToDocument u)] ∧
        (s.handleUserUpdated d).calls =
          [BackendCall.upsertUserDoc GoContext.background (s.userToDocument u)]) ∧
    (∀ (s : SubscriberService) (d : Option Json) (p : Post),
        unmarshalPost d = Except.ok p →
        (s.handlePostUpsert d).calls =
          [BackendCall.upsertPostDoc GoContext.background (s.postToDocument p)]) ∧
    (∀ (s : SubscriberService) (d : Option Json) (r : DeleteEvent),
        unmarshalDeleteEvent d = Except.ok r →
        (s.handleUserDeleted d).calls =
          [BackendCall.deleteUserDoc GoContext.background r.Id] ∧
        (s.handlePostDeleted d).calls =
          [BackendCall.deletePostDoc GoContext.background r.Id]) ∧
    (∀ (s : SubscriberService) (d : Option Json),
        (s.handleUserCreated d).state.postsColl = s.postsColl ∧
        (s.handleUserUpdated d).state.postsColl = s.postsColl ∧
        (s.handleUserDeleted d).state.postsColl = s.postsColl ∧
        (s.handlePostUpsert d).state.usersColl = s.usersColl ∧
        (s.handlePostDeleted d).state.usersColl = s.usersColl) := by
  refine ⟨rfl, ?_, ?_, ?_, ?_, ?_, ?_⟩
  · intro s subj d
    unfold SubscriberService.dispatch
    by_cases h1 : subj = "users.created" <;> by_cases h2 : subj = "users.updated" <;>
      by_cases h3 : subj = "users.deleted" <;> by_cases h4 : subj = "posts.upsert" <;>
      by_cases h5 : subj = "posts.deleted" <;>
      simp [subjects, h1, h2, h3, h4, h5]
  · intro s d
    exact ⟨rfl, rfl, rfl, rfl, rfl⟩
  · intro s d u hu
    exact ⟨handleUserCreated_calls_of_ok s d u hu,
      handleUserUpdated_calls_of_ok s d u hu⟩
  · intro s d p hp
    exact handlePostUpsert_calls_of_ok s d p hp
  · intro s d r hr
    exact ⟨handleUserDeleted_calls_of_ok s d r hr,
      handlePostDeleted_calls_of_ok s d r hr⟩
  · intro s d
    exact ⟨handleUserCreated_postsColl s d, handleUserUpdated_postsColl s d,
      handleUserDeleted_postsColl s d, handlePostUpsert_usersColl s d,
      handlePostDeleted_usersColl s d⟩

/-- Witness for C2 at concrete payloads on the user-created and
post-deleted pipelines. -/
theorem claim_c2_witness :
    (emptyService.dispatch ("users.created") (some (Json.obj []))).isSome = true ∧
    (emptyService.handleUserCreated (some (Json.obj []))).calls =
      [BackendCall.createUserDoc GoContext.background
        (emptyService.userToDocument User.zero)] ∧
    (emptyService.handlePostDeleted (some (Json.obj [("id", Json.str ("p1"))]))).calls =
      [BackendCall.deletePostDoc GoContext.background ("p1")] := by
  refine ⟨?_, ?_, ?_⟩
  · exact (claim_c2.2.1 emptyService ("users.created")
      (some (Json.obj []))).mpr (by decide)
  · exact (claim_c2.2.2.2.1 emptyService (some (Json.obj [])) User.zero
      (by decide)).1
  · exact (claim_c2.2.2.2.2.2.1 emptyService
      (some (Json.obj [("id", Json.str ("p1"))])) ⟨"p1"⟩ (by decide)).2

/-- Claim C6: on decode failure every handler logs the failure and
returns with state unchanged and no backend call; when the decode
succeeds and the apply fails, the handler logs and returns with state
unchanged after exactly its one call; no handler ever issues more than
one backend call, so a failed apply is never retried. -/
theorem claim_c6 : ∀ (s : SubscriberService) (d : Option Json),
    (exceptOk (unmarshalUser d) = false →
      s.handleUserCreated d =
        ⟨s, [], ["new user created event received", "failed to unmarshal user"]⟩ ∧
      s.handleUserUpdated d =
        ⟨s, [], ["user updated event received", "failed to unmarshal user"]⟩) ∧
    (exceptOk (unmarshalPost d) = false →
      s.handlePostUpsert d =
        ⟨s, [], ["post upsert event received", "failed to unmarshal post"]⟩) ∧
    (exceptOk (unmarshalDeleteEvent d) = false →
      s.handleUserDeleted d =
        ⟨s, [], ["user deleted event received", "failed to unmarshal delete event"]⟩ ∧
      s.handlePostDeleted d =
        ⟨s, [], ["post deleted event received", "failed to unmarshal delete event"]⟩) ∧
    (∀ (u : User) (e : String), unmarshalUser d = Except.ok u →
      (s.applyCall (BackendCall.createUserDoc GoContext.background
          (s.userToDocument u)) = Except.error e →
        s.handleUserCreated d =
          ⟨s, [BackendCall.createUserDoc GoContext.background (s.userToDocument u)],
           ["new user created event received", "failed to create user in Typesense"]⟩) ∧
      (s.applyCall (BackendCall.upsertUserDoc GoContext.background
          (s.userToDocument u)) = Except.error e →
        s.handleUserUpdated d =
          ⟨s, [BackendCall.upsertUserDoc GoContext.background (s.userToDocument u)],
           ["user updated event received", "failed to update user in Typesense"]⟩)) ∧
    (∀ (p : Post) (e : String), unmarshalPost d = Except.ok p →
      s.applyCall (BackendCall.upsertPostDoc GoContext.background
          (s.postToDocument p)) = Except.error e →
      s.handlePostUpsert d =
        ⟨s, [BackendCall.upsertPostDoc GoContext.background (s.postToDocument p)],
         ["post upsert event received", "failed to upsert post in Typesense"]⟩) ∧
    (∀ (r : DeleteEvent) (e : String), unmarshalDeleteEvent d = Except.ok r →
      (s.applyCall (BackendCall.deleteUserDoc GoContext.background r.Id) =
          Except.error e →
        s.handleUserDeleted d =
          ⟨s, [BackendCall.deleteUserDoc GoContext.background r.Id],
           ["user deleted event received", "failed to delete user from Typesense"]⟩) ∧
      (s.applyCall (BackendCall.deletePostDoc GoContext.background r.Id) =
          Except.error e →
        s.handlePostDeleted d =
          ⟨s, [BackendCall.deletePostDoc GoContext.background r.Id],
           ["post deleted event received", "failed to delete post from Typesense"]⟩)) ∧
    (s.handleUserCreated d).calls.length ≤ 1 ∧
    (s.handleUserUpdated d).calls.length ≤ 1 ∧
    (s.handleUserDeleted d).calls.length ≤ 1 ∧
    (s.handlePostUpsert d).calls.length ≤ 1 ∧
    (s.handlePostDeleted d).calls.length ≤ 1 := by
  intro s d
  refine ⟨?_, ?_, ?_, ?_, ?_, ?_, handleUserCreated_calls_len s d,
    handleUserUpdated_calls_len s d, handleUserDeleted_calls_len s d,
    handlePostUpsert_calls_len s d, handlePostDeleted_calls_len s d⟩
  · intro h
    obtain ⟨e, he⟩ := (exceptOk_false_iff _).mp h
    exact ⟨handleUserCreated_decodeFail s d e he,
      handleUserUpdated_decodeFail s d e he⟩
  · intro h
    obtain ⟨e, he⟩ := (exceptOk_false_iff _).mp h
    exact handlePostUpsert_decodeFail s d e he
  · intro h
    obtain ⟨e, he⟩ := (exceptOk_false_iff _).mp h
    exact ⟨handleUserDeleted_decodeFail s d e he,
      handlePostDeleted_decodeFail s d e he⟩
  · intro u e hu
    exact ⟨fun ha => handleUserCreated_applyFail s d u e hu ha,
      fun ha => handleUserUpdated_applyFail s d u e hu ha⟩
  · intro p e hp ha
    exact handlePostUpsert_applyFail s d p e hp ha
  · intro r e hr
    exact ⟨fun ha => handleUserDeleted_applyFail s d r e hr ha,
      fun ha => handlePostDeleted_applyFail s d r e hr ha⟩

/-- Witness for C6: a non-JSON payload makes the user-created handler
return with no call; a duplicate create and a not-found delete each fail
at the apply step with exactly one call and an unchanged state. -/
theorem claim_c6_witness :
    emptyService.handleUserCreated none =
      ⟨emptyService, [], ["new user created event received", "failed to unmarshal user"]⟩ ∧
    dupService.handleUserCreated (some (Json.obj [])) =
      ⟨dupService,
       [BackendCall.createUserDoc GoContext.background
         (dupService.userToDocument User.zero)],
       ["new user created event received", "failed to create user in Typesense"]⟩ ∧
    emptyService.handleUserDeleted (some (Json.obj [])) =
      ⟨emptyService, [BackendCall.deleteUserDoc GoContext.background ("")],
       ["user deleted event received", "failed to delete user from Typesense"]⟩ := by
  refine ⟨((claim_c6 emptyService none).1 (by decide)).1, ?_, ?_⟩
  · exact ((claim_c6 dupService (some (Json.obj []))).2.2.2.1 User.zero
      ("A document with id already exists") (by decide)).1 (by decide)
  · exact ((claim_c6 emptyService (some (Json.obj []))).2.2.2.2.2.1 DeleteEvent.zero
      ("Could not find a document with id") (by decide)).1 (by decide)

/-- Claim C7: the deletion handlers depend on an object payload only
through its id bindings: filtering out every non-id field leaves the
handler result (state, calls and logs) unchanged; and when decoding
succeeds the delete call is keyed solely by the decoded id. -/
theorem claim_c7 :
    (∀ (s : SubscriberService) (fields : List (String × Json)),
        s.handleUserDeleted (some (Json.obj fields)) =
          s.handleUserDeleted (some (Json.obj
            (fields.filter fun kv => foldKey kv.1 == "id"))) ∧
        s.handlePostDeleted (some (Json.obj fields)) =
          s.handlePostDeleted (some (Json.obj
            (fields.filter fun kv => foldKey kv.1 == "id")))) ∧
    (∀ (s : SubscriberService) (d : Option Json) (r : DeleteEvent),
        unmarshalDeleteEvent d = Except.ok r →
        (s.handleUserDeleted d).calls =
          [BackendCall.deleteUserDoc GoContext.background r.Id] ∧
        (s.handlePostDeleted d).calls =
          [BackendCall.deletePostDoc GoContext.background r.Id]) := by
  constructor
  · intro s fields
    have hdec : unmarshalDeleteEvent (some (Json.obj fields)) =
        unmarshalDeleteEvent (some (Json.obj
          (fields.filter fun kv => foldKey kv.1 == "id"))) := by
      show unmarshalDeleteObj DeleteEvent.zero fields = _
      exact unmarshalDeleteObj_filter fields DeleteEvent.zero
    constructor
    · unfold SubscriberService.handleUserDeleted
      rw [hdec]
    · unfold SubscriberService.handlePostDeleted
      rw [hdec]
  · intro s d r hr
    exact ⟨handleUserDeleted_calls_of_ok s d r hr,
      handlePostDeleted_calls_of_ok s d r hr⟩

/-- Witness for C7: a delete payload carrying an extra field still
deletes exactly the decoded id. -/
theorem claim_c7_witness :
    (emptyService.handleUserDeleted (some (Json.obj
        [("id", Json.str ("u1")), ("extra", Json.bool true)]))).calls =
      [BackendCall.deleteUserDoc GoContext.background ("u1")] :=
  (claim_c7.2 emptyService (some (Json.obj
      [("id", Json.str ("u1")), ("extra", Json.bool true)])) ⟨"u1"⟩ (by decide)).1

/-- Claim C8: registration of the five subscriptions either all succeeds,
reaching the steady listening state with exactly the five subjects bound,
or aborts startup (`os.Exit(1)`, modelled as `none`) as soon as any
registration fails: a half-registered set of subjects is never observable. -/
theorem claim_c8 :
    subjects.length = 5 ∧
    ∀ env : String → Bool,
      setupSubscriptions env =
        (if env ("users.created") && env ("users.updated") && env ("users.deleted") &&
            env ("posts.upsert") && env ("posts.deleted") then some subjects
         else none) := by
  refine ⟨rfl, ?_⟩
  intro env
  unfold setupSubscriptions
  by_cases h1 : env ("users.created") <;> by_cases h2 : env ("users.updated") <;>
    by_cases h3 : env ("users.deleted") <;> by_cases h4 : env ("posts.upsert") <;>
    by_cases h5 : env ("posts.deleted") <;> simp [h1, h2, h3, h4, h5]
